import Mathlib

/-!
Verification of PressurePlotImproved (PIMP) against its specification.

The Python sources are shallowly embedded over the rational numbers;
numpy float arrays become lists of rationals, numpy negative indexing and
other operations that can raise become Option valued functions, and the
scipy Akima interpolator together with the trigonometric float functions
are treated as abstract parameters where a claim does not depend on their
values.
-/

set_option autoImplicit false

/-- Model of numpy negative indexing a[-k] (k positive): defined only when
the list has at least k elements, otherwise the access raises. -/
def negGet (l : List ℚ) (k : ℕ) : Option ℚ :=
  if 1 ≤ k ∧ k ≤ l.length then l.get? (l.length - k) else none

/-- Model of numpy boolean mask indexing arr[mask]: keep the entries whose
mask bit is set. -/
def maskFilter (mask : List Bool) (arr : List ℚ) : List ℚ :=
  ((mask.zip arr).filter (fun p => p.1)).map (fun p => p.2)

/-- Model of np.diff: consecutive differences, one element shorter. -/
def npDiff {α : Type} [Sub α] (l : List α) : List α :=
  (l.zip l.tail).map (fun p => p.2 - p.1)

/-- Elementwise product of two numpy arrays. -/
def mulArr {α : Type} [Mul α] : List α → List α → List α :=
  List.zipWith (fun a b => a * b)

/-- Model of np.linspace a b n : n evenly spaced points from a to b. -/
def linspace (a b : ℚ) (n : ℕ) : List ℚ :=
  (List.range n).map (fun i => a + (b - a) * i / ((n : ℚ) - 1))

/-- Trailing-edge boundary extension for the TOP surface, from
workers.py lines 1122-1127: when the largest coordinate is below 0.99 the
code appends coordinate 1 with pressure
pressures_top[-2] + (pressures_top[-1] - pressures_top[-2]),
an unscaled difference (it simplifies to the last pressure itself).
Arguments are the sorted coordinates and sorted pressures; the result is
the extended (coordinates, pressures) pair, none when indexing raises. -/
def extendTop (xc ps : List ℚ) : Option (List ℚ × List ℚ) := do
  let xlast ← negGet xc 1
  if xlast < 99 / 100 then
    let p1 ← negGet ps 1
    let p2 ← negGet ps 2
    let lastP := p2 + (p1 - p2)
    pure (xc ++ [1], ps ++ [lastP])
  else
    pure (xc, ps)

/-- Trailing-edge boundary extension for the BOTTOM surface, from
workers.py lines 1129-1135: when the largest coordinate is below 0.99 the
code appends coordinate 1 with pressure
pressures_bottom[-2]
  + (pressures_bottom[-1] - pressures_bottom[-2])
    / (x_coordinates_bottom[-1] - x_coordinates_bottom[-2])
    * (1 - x_coordinates_bottom[-2]),
a genuine linear extrapolation from the last two knots; note the slope is
taken from the UNSORTED instance attribute self.x_coordinates_bottom,
passed here as xOrig. -/
def extendBottom (xc ps xOrig : List ℚ) : Option (List ℚ × List ℚ) := do
  let xlast ← negGet xc 1
  if xlast < 99 / 100 then
    let p1 ← negGet ps 1
    let p2 ← negGet ps 2
    let xo1 ← negGet xOrig 1
    let xo2 ← negGet xOrig 2
    let lastP := p2 + (p1 - p2) / (xo1 - xo2) * (1 - xo2)
    pure (xc ++ [1], ps ++ [lastP])
  else
    pure (xc, ps)

/-- Leading-edge boundary extension, from workers.py lines 1137-1143: when
the smallest coordinate exceeds 1e-5, prepend coordinate 0 with
pressure 0 (identical for both surfaces). -/
def prependZero (xc ps : List ℚ) : Option (List ℚ × List ℚ) := do
  let x0 ← xc.head?
  if x0 > 1 / 100000 then
    pure (0 :: xc, 0 :: ps)
  else
    pure (xc, ps)

/-- Pressure at coordinate 1 on the straight line through the last two
knots (x2, p2) and (x1, p1): the linear extrapolation the spec describes. -/
def linExtrapAtOne (x2 p2 x1 p1 : ℚ) : ℚ :=
  p2 + (p1 - p2) / (x1 - x2) * (1 - x2)

/-- C1: on the spec example, coordinates [0.1, 0.3, 0.6] and pressures
[5, 3, 1], the top-surface extension appends pressure 1 (it merely repeats
the last pressure, an unscaled difference), while the bottom-surface code
on the very same data appends -5/3, the linear extrapolation through
(0.3, 3) and (0.6, 1); the two formulas disagree, so the top surface does
NOT append a point on that line, though (0, 0) is prepended as claimed. -/
theorem boundaryExtension_top_bottom_mismatch :
    extendTop [1/10, 3/10, 6/10] [5, 3, 1]
      = some ([1/10, 3/10, 6/10, 1], [5, 3, 1, 1])
    ∧ extendBottom [1/10, 3/10, 6/10] [5, 3, 1] [1/10, 3/10, 6/10]
      = some ([1/10, 3/10, 6/10, 1], [5, 3, 1, -5/3])
    ∧ linExtrapAtOne (3/10) 3 (6/10) 1 = -5/3
    ∧ prependZero [1/10, 3/10, 6/10] [5, 3, 1]
      = some ([0, 1/10, 3/10, 6/10], [0, 5, 3, 1])
    ∧ (1 : ℚ) ≠ -5/3 := by
  refine ⟨?_, ?_, ?_, ?_, ?_⟩
  · norm_num [extendTop, negGet]
  · norm_num [extendBottom, negGet]
  · norm_num [linExtrapAtOne]
  · norm_num [prependZero]
  · norm_num

/-- State of one serial device channel, from serialdevices.py: the flag
set by the constructor and whether the underlying serial port is open. -/
structure Device where
  connectionEstablished : Bool
  serOpen : Bool
  expectedShape : ℕ
deriving DecidableEq, Repr

/-- Model of Device.getNewData (serialdevices.py lines 49-66) acting on a
device state and the float array parsed from the response line. A serial
operation on a closed port raises, the bare except turns every raise into
Exception about getNewData; on a shape mismatch the code closes the port
and then raises; on a match it returns the parsed array unchanged; when
connection_established is false the method falls through and returns
None. -/
def getNewData (dev : Device) (parsed : List ℚ) :
    Device × Except String (Option (List ℚ)) :=
  if dev.connectionEstablished then
    if dev.serOpen then
      if parsed.length = dev.expectedShape then
        (dev, Except.ok (some parsed))
      else
        ({ dev with serOpen := false }, Except.error "ERROR in method getNewData")
    else
      (dev, Except.error "ERROR in method getNewData")
  else
    (dev, Except.ok none)

/-- C4: on a connected open channel, a response whose parsed token count
differs from the declared arity raises a shape error, and the only value
ever returned is the parsed array itself, of exactly the declared
length - never a truncated or padded one. -/
theorem getNewData_shape_check (dev : Device) (parsed : List ℚ)
    (hconn : dev.connectionEstablished = true) (hopen : dev.serOpen = true) :
    (parsed.length ≠ dev.expectedShape →
      (getNewData dev parsed).2 = Except.error "ERROR in method getNewData")
    ∧ (parsed.length = dev.expectedShape →
      (getNewData dev parsed).2 = Except.ok (some parsed))
    ∧ (∀ r : List ℚ, (getNewData dev parsed).2 = Except.ok (some r) →
      r = parsed ∧ r.length = dev.expectedShape) := by
  refine ⟨fun hne => by simp [getNewData, hconn, hopen, hne],
    fun heq => by simp [getNewData, hconn, hopen, heq], ?_⟩
  intro r hr
  by_cases h : parsed.length = dev.expectedShape
  · simp [getNewData, hconn, hopen, h] at hr
    exact ⟨hr.symm, hr ▸ h⟩
  · simp [getNewData, hconn, hopen, h] at hr

/-- Closed witness for getNewData_shape_check at a 3-token response on a
16-channel pressure device. -/
theorem getNewData_shape_check_witness :
    (getNewData ⟨true, true, 16⟩ [1, 2, 3]).2
      = Except.error "ERROR in method getNewData" :=
  (getNewData_shape_check ⟨true, true, 16⟩ [1, 2, 3] rfl rfl).1 (by decide)

/-- C10: a shape mismatch on an open connected channel closes the serial
port before raising, and on the resulting device state every further
query fails (returns an error, never a value), until a new connect. -/
theorem getNewData_mismatch_closes_port (dev : Device) (parsed : List ℚ)
    (hconn : dev.connectionEstablished = true) (hopen : dev.serOpen = true)
    (hne : parsed.length ≠ dev.expectedShape) :
    (getNewData dev parsed).1.serOpen = false
    ∧ (getNewData dev parsed).2 = Except.error "ERROR in method getNewData"
    ∧ (∀ parsed2 : List ℚ,
        (getNewData (getNewData dev parsed).1 parsed2).2
          = Except.error "ERROR in method getNewData") := by
  refine ⟨by simp [getNewData, hconn, hopen, hne], by simp [getNewData, hconn, hopen, hne], ?_⟩
  intro parsed2
  simp [getNewData, hconn, hopen, hne]

/-- Closed witness for getNewData_mismatch_closes_port: after one 3-token
response on a 16-channel device the port is closed and the next query
with a perfectly shaped response still fails. -/
theorem getNewData_mismatch_closes_port_witness :
    (getNewData ⟨true, true, 16⟩ [1, 2, 3]).1.serOpen = false
    ∧ (getNewData (getNewData ⟨true, true, 16⟩ [1, 2, 3]).1
        (List.replicate 16 0)).2
        = Except.error "ERROR in method getNewData" := by
  have h := getNewData_mismatch_closes_port ⟨true, true, 16⟩ [1, 2, 3]
    rfl rfl (by decide)
  exact ⟨h.1, h.2.2 (List.replicate 16 0)⟩

/-- One merged sample: 16 tap pressures and the 4 environment values
(temperature, ambient pressure, humidity, density), from the data model. -/
structure Reading where
  pressure : List ℚ
  env : List ℚ
deriving DecidableEq, Repr

/-- Elementwise sum of two numpy arrays (rows of equal length in use). -/
def addVec : List ℚ → List ℚ → List ℚ :=
  List.zipWith (fun a b => a + b)

/-- Sum of a stack of rows, elementwise, as np.sum over axis 0. -/
def sumVecs : List (List ℚ) → List ℚ
  | [] => []
  | [r] => r
  | r :: rs => addVec r (sumVecs rs)

/-- Model of np.mean(rows, axis=0): elementwise sum divided by the number
of rows. -/
def meanVec (rows : List (List ℚ)) : List ℚ :=
  (sumVecs rows).map (fun x => x / (rows.length : ℚ))

/-- Model of np.mean on a one dimensional array. -/
def meanScalar (l : List ℚ) : ℚ :=
  l.sum / (l.length : ℚ)

/-- The numeric fields of the row that Data.saveData assembles
(workers.py lines 909-964): mean environment values, angle, velocity,
mean lift, width, the number of measurements, and the mean pressures. -/
structure SavedRecord where
  envMean : List ℚ
  angle : ℚ
  velocity : ℚ
  liftMean : ℚ
  width : ℚ
  nMeas : ℕ
  pressuresMean : List ℚ
deriving DecidableEq, Repr

/-- Model of the averaging part of Data.saveData: take the collected
readings and lift values and record their elementwise means. -/
def saveAveraged (readings : List Reading) (lifts : List ℚ)
    (angle velocity width : ℚ) : SavedRecord :=
  { envMean := meanVec (readings.map (fun r => r.env))
    angle := angle
    velocity := velocity
    liftMean := meanScalar lifts
    width := width
    nMeas := readings.length
    pressuresMean := meanVec (readings.map (fun r => r.pressure)) }

theorem addVec_map_mul (c : ℚ) (v : List ℚ) :
    addVec v (v.map (fun x => c * x)) = v.map (fun x => (c + 1) * x) := by
  induction v with
  | nil => rfl
  | cons x xs ih =>
    simp only [addVec, List.map_cons, List.zipWith_cons_cons] at *
    rw [ih]
    congr 1
    ring

theorem sumVecs_replicate (v : List ℚ) :
    ∀ n : ℕ, 1 ≤ n →
      sumVecs (List.replicate n v) = v.map (fun x => (n : ℚ) * x) := by
  intro n
  induction n with
  | zero => intro h; exact absurd h (by omega)
  | succ n ih =>
    intro _
    cases n with
    | zero =>
      simp only [List.replicate_succ, List.replicate_zero, sumVecs]
      have hmap : v.map (fun x => ((0 + 1 : ℕ) : ℚ) * x) = v.map id :=
        List.map_congr_left (by intro a _; simp)
      rw [hmap, List.map_id]
    | succ m =>
      have h1 : 1 ≤ m + 1 := by omega
      rw [List.replicate_succ]
      rw [show sumVecs (v :: List.replicate (m + 1) v)
            = addVec v (sumVecs (List.replicate (m + 1) v)) by
        rw [List.replicate_succ]; rfl]
      rw [ih h1, addVec_map_mul]
      congr 1
      funext x
      push_cast
      ring

theorem meanVec_replicate (n : ℕ) (h : 1 ≤ n) (v : List ℚ) :
    meanVec (List.replicate n v) = v := by
  have hn : (n : ℚ) ≠ 0 := Nat.cast_ne_zero.mpr (by omega)
  unfold meanVec
  rw [List.length_replicate, sumVecs_replicate v n h, List.map_map]
  have hfun : ∀ a ∈ v, ((fun x => x / (n : ℚ)) ∘ fun x => (n : ℚ) * x) a = id a := by
    intro a _
    simp only [Function.comp, id]
    field_simp
  rw [List.map_congr_left hfun, List.map_id]

theorem meanScalar_replicate (n : ℕ) (h : 1 ≤ n) (x : ℚ) :
    meanScalar (List.replicate n x) = x := by
  have hn : (n : ℚ) ≠ 0 := Nat.cast_ne_zero.mpr (by omega)
  unfold meanScalar
  rw [List.sum_replicate, List.length_replicate, nsmul_eq_mul]
  exact mul_div_cancel_left₀ x hn

/-- C5: averaging n identical Readings with identical lift values records
exactly the Reading values (the elementwise mean of n equal samples is
the sample itself); n = 1 is the identity case of the same statement. -/
theorem saveAveraged_identical_readings (n : ℕ) (h : 1 ≤ n) (r : Reading)
    (lift angle velocity width : ℚ) :
    (saveAveraged (List.replicate n r) (List.replicate n lift)
        angle velocity width).pressuresMean = r.pressure
    ∧ (saveAveraged (List.replicate n r) (List.replicate n lift)
        angle velocity width).envMean = r.env
    ∧ (saveAveraged (List.replicate n r) (List.replicate n lift)
        angle velocity width).liftMean = lift := by
  unfold saveAveraged
  rw [List.map_replicate, List.map_replicate]
  exact ⟨meanVec_replicate n h _, meanVec_replicate n h _,
    meanScalar_replicate n h _⟩

/-- Closed witness for saveAveraged_identical_readings at n = 2 and a
concrete Reading. -/
theorem saveAveraged_identical_readings_witness :
    (saveAveraged (List.replicate 2 ⟨[2, 3], [4]⟩) (List.replicate 2 7)
        0 0 0).pressuresMean = [2, 3]
    ∧ (saveAveraged (List.replicate 2 ⟨[2, 3], [4]⟩) (List.replicate 2 7)
        0 0 0).envMean = [4]
    ∧ (saveAveraged (List.replicate 2 ⟨[2, 3], [4]⟩) (List.replicate 2 7)
        0 0 0).liftMean = 7 :=
  saveAveraged_identical_readings 2 (by omega) ⟨[2, 3], [4]⟩ 7 0 0 0

/-- A CSV file on disk: the header row and the data rows. -/
structure CsvFile where
  header : List String
  rows : List (List String)
deriving DecidableEq, Repr

/-- Index of the first column named c, as pandas looks columns up by
name when aligning frames. -/
def colIdx (c : String) : List String → Option ℕ
  | [] => none
  | d :: ds => if d == c then some 0 else (colIdx c ds).map (fun i => i + 1)

/-- Realign one data row from its source columns onto target columns by
column name, filling missing columns with NaN, as pandas concat does. -/
def alignRow (srcCols tgtCols : List String) (row : List String) : List String :=
  tgtCols.map (fun c =>
    match colIdx c srcCols with
    | some i => row.getD i "NaN"
    | none => "NaN")

/-- Model of pd.concat of two frames: the columns of the first frame
followed by the new columns of the second, rows of both realigned. -/
def concatFrames (a b : CsvFile) : CsvFile :=
  { header := a.header ++ b.header.filter (fun c => !(a.header.contains c))
    rows :=
      a.rows.map (alignRow a.header
        (a.header ++ b.header.filter (fun c => !(a.header.contains c))))
      ++ b.rows.map (alignRow b.header
        (a.header ++ b.header.filter (fun c => !(a.header.contains c)))) }

/-- File-level model of the save step of Data.saveData (workers.py lines
966-974): when the target file does not exist, write the new single-row
frame with the configured header; otherwise read the old frame, set the
new frame columns to the configured header, concatenate and rewrite. -/
def saveDataFile (file : Option CsvFile) (header row : List String) : CsvFile :=
  match file with
  | none => { header := header, rows := [row] }
  | some f => concatFrames f { header := header, rows := [row] }

theorem filter_not_contains_self (l : List String) :
    l.filter (fun c => !(l.contains c)) = [] := by
  rw [List.filter_eq_nil_iff]
  intro a ha
  simp [ha]

theorem alignRow_self (cols : List String) :
    ∀ row : List String, cols.Nodup → row.length = cols.length →
      alignRow cols cols row = row := by
  induction cols with
  | nil =>
    intro row _ hlen
    cases row with
    | nil => rfl
    | cons x xs => simp at hlen
  | cons c cs ih =>
    intro row hnd hlen
    cases row with
    | nil => simp at hlen
    | cons x xs =>
      have hcn : c ∉ cs := (List.nodup_cons.mp hnd).1
      have hnd2 : cs.Nodup := (List.nodup_cons.mp hnd).2
      have hlen2 : xs.length = cs.length := by simpa using hlen
      simp only [alignRow, List.map_cons]
      have hhead : (match colIdx c (c :: cs) with
          | some i => (x :: xs).getD i "NaN"
          | none => "NaN") = x := by
        simp [colIdx]
      rw [hhead]
      have htail : ∀ d ∈ cs,
          (match colIdx d (c :: cs) with
            | some i => (x :: xs).getD i "NaN"
            | none => "NaN")
          = (match colIdx d cs with
            | some i => xs.getD i "NaN"
            | none => "NaN") := by
        intro d hd
        have hne : (c == d) = false := by
          simp only [beq_eq_false_iff_ne, ne_eq]
          intro hc
          exact hcn (hc ▸ hd)
        simp only [colIdx, hne, if_false]
        cases colIdx d cs with
        | none => rfl
        | some i => simp
      rw [List.map_congr_left htail]
      have := ih xs hnd2 hlen2
      simp only [alignRow] at this
      rw [this]

/-- C6: saving to a non-existent path creates a file holding the header
and exactly the one new row; saving to an existing well-formed file
(its header is the configured one, duplicate-free, rows rectangular)
leaves the header untouched, preserves every existing row unchanged and
appends exactly one row. -/
theorem saveDataFile_append (f : CsvFile) (header row : List String)
    (hh : f.header = header) (hnd : f.header.Nodup)
    (hrows : ∀ r ∈ f.rows, r.length = f.header.length)
    (hrow : row.length = header.length) :
    saveDataFile none header row = { header := header, rows := [row] }
    ∧ (saveDataFile (some f) header row).header = f.header
    ∧ (saveDataFile (some f) header row).rows = f.rows ++ [row] := by
  subst hh
  refine ⟨rfl, ?_, ?_⟩
  · simp [saveDataFile, concatFrames, filter_not_contains_self]
  · simp only [saveDataFile, concatFrames, filter_not_contains_self,
      List.append_nil, List.map_cons, List.map_nil]
    have hmap : f.rows.map (alignRow f.header f.header) = f.rows.map id := by
      apply List.map_congr_left
      intro r hr
      exact alignRow_self f.header r hnd (hrows r hr)
    rw [hmap, List.map_id]
    rw [alignRow_self f.header row hnd hrow]

/-- Closed witness for saveDataFile_append on a concrete two-column file. -/
theorem saveDataFile_append_witness :
    (saveDataFile (some ⟨["a", "b"], [["1", "2"]]⟩) ["a", "b"] ["3", "4"]).header
      = ["a", "b"]
    ∧ (saveDataFile (some ⟨["a", "b"], [["1", "2"]]⟩) ["a", "b"] ["3", "4"]).rows
      = [["1", "2"], ["3", "4"]] := by
  have h := saveDataFile_append ⟨["a", "b"], [["1", "2"]]⟩ ["a", "b"] ["3", "4"]
    rfl (by decide) (by decide) (by decide)
  exact ⟨h.2.1, h.2.2⟩

/-- The two active-tap masks built in SetUpWindow.setUp (windows.py lines
166-172): a tap is on the top surface when its enable flag and its color
flag are both set, on the bottom surface when enabled with the color flag
clear. -/
def setUpMasks (status color : List Bool) : List Bool × List Bool :=
  (List.zipWith (fun s c => s && c) status color,
   List.zipWith (fun s c => s && !c) status color)

/-- Model of np.sum over a boolean mask: the number of set entries. -/
def countTrue (mask : List Bool) : ℕ :=
  (mask.filter (fun b => b)).length

/-- Duplicate detection on the selected coordinates, as the np.unique /
setdiff1d check of setUp: true when some value occurs twice. -/
def hasDup : List ℚ → Bool
  | [] => false
  | x :: xs => xs.contains x || hasDup xs

/-- Model of the accept-or-reject outcome of SetUpWindow.setUp
(windows.py lines 166-215): build both masks, reject when a surface has
fewer than two active taps or duplicate active coordinates, otherwise
emit the masks and coordinates to all tasks. -/
def setUpAccept (status color : List Bool) (coords : List ℚ) :
    Option (List Bool × List Bool × List ℚ) :=
  if hasDup (maskFilter (setUpMasks status color).1 coords)
      || hasDup (maskFilter (setUpMasks status color).2 coords)
      || !(!(decide (countTrue (setUpMasks status color).1 < 2)
            || decide (countTrue (setUpMasks status color).2 < 2))) then
    none
  else
    some ((setUpMasks status color).1, (setUpMasks status color).2, coords)

theorem hasDup_eq_false_iff (l : List ℚ) : hasDup l = false ↔ l.Nodup := by
  induction l with
  | nil => simp [hasDup]
  | cons x xs ih =>
    simp [hasDup, ih, List.nodup_cons]

theorem setUpMasks_disjoint (status : List Bool) :
    ∀ (color : List Bool) (i : ℕ),
      ¬((setUpMasks status color).1.getD i false = true
        ∧ (setUpMasks status color).2.getD i false = true) := by
  induction status with
  | nil => intro color i; simp [setUpMasks]
  | cons s ss ih =>
    intro color i
    cases color with
    | nil => simp [setUpMasks]
    | cons c cc =>
      cases i with
      | zero =>
        simp only [setUpMasks, List.zipWith_cons_cons, List.getD_cons_zero]
        cases s <;> cases c <;> simp
      | succ j =>
        simpa [setUpMasks] using ih cc j

theorem hasDup_eq_true_of_not_nodup (l : List ℚ) (h : ¬ l.Nodup) :
    hasDup l = true := by
  cases hb : hasDup l
  · exact absurd ((hasDup_eq_false_iff l).mp hb) h
  · rfl

theorem setUpAccept_characterization (status color : List Bool)
    (coords : List ℚ) (mT mB : List Bool) (cs : List ℚ) :
    setUpAccept status color coords = some (mT, mB, cs) ↔
      (mT = (setUpMasks status color).1 ∧ mB = (setUpMasks status color).2
       ∧ cs = coords
       ∧ hasDup (maskFilter mT coords) = false
       ∧ hasDup (maskFilter mB coords) = false
       ∧ 2 ≤ countTrue mT ∧ 2 ≤ countTrue mB) := by
  unfold setUpAccept
  split
  · rename_i hcond
    constructor
    · intro h; exact absurd h (by simp)
    · rintro ⟨rfl, rfl, rfl, hdT, hdB, hlT, hlB⟩
      rw [hdT, hdB] at hcond
      simp only [Bool.false_or, Bool.not_not, Bool.or_eq_true,
        decide_eq_true_eq] at hcond
      omega
  · rename_i hcond
    simp only [Bool.or_eq_true, not_or, Bool.not_eq_true, Bool.not_not] at hcond
    obtain ⟨⟨hdT, hdB⟩, hl1, hl2⟩ := hcond
    rw [decide_eq_false_iff_not] at hl1 hl2
    constructor
    · intro h
      injection h with h1
      simp only [Prod.mk.injEq] at h1
      obtain ⟨h2, h3, h4⟩ := h1
      subst h2; subst h3; subst h4
      exact ⟨rfl, rfl, rfl, hdT, hdB, by omega, by omega⟩
    · rintro ⟨rfl, rfl, rfl, _, _, _, _⟩
      rfl

/-- C9: every configuration the setup action accepts and emits satisfies
the three invariants - the two masks are disjoint at every index, each
selects at least two taps, and the active coordinates on each surface are
duplicate-free; and every candidate violating the tap-count or
duplicate-coordinate conditions is rejected (nothing is emitted). -/
theorem setUp_validation_invariants (status color : List Bool)
    (coords : List ℚ) :
    (∀ mT mB cs,
      setUpAccept status color coords = some (mT, mB, cs) →
      (∀ i : ℕ, ¬(mT.getD i false = true ∧ mB.getD i false = true))
      ∧ 2 ≤ countTrue mT ∧ 2 ≤ countTrue mB
      ∧ (maskFilter mT cs).Nodup ∧ (maskFilter mB cs).Nodup)
    ∧ ((countTrue (setUpMasks status color).1 < 2
        ∨ countTrue (setUpMasks status color).2 < 2
        ∨ ¬(maskFilter (setUpMasks status color).1 coords).Nodup
        ∨ ¬(maskFilter (setUpMasks status color).2 coords).Nodup) →
      setUpAccept status color coords = none) := by
  constructor
  · intro mT mB cs hsome
    rw [setUpAccept_characterization] at hsome
    obtain ⟨hmT, hmB, hcs, hdT, hdB, hlT, hlB⟩ := hsome
    subst hmT; subst hmB; subst hcs
    exact ⟨fun i => setUpMasks_disjoint status color i, hlT, hlB,
      (hasDup_eq_false_iff _).mp hdT, (hasDup_eq_false_iff _).mp hdB⟩
  · intro hviol
    unfold setUpAccept
    have hcond : (hasDup (maskFilter (setUpMasks status color).1 coords)
        || hasDup (maskFilter (setUpMasks status color).2 coords)
        || !(!(decide (countTrue (setUpMasks status color).1 < 2)
              || decide (countTrue (setUpMasks status color).2 < 2)))) = true := by
      rcases hviol with h | h | h | h
      · simp [h]
      · simp [h]
      · simp [hasDup_eq_true_of_not_nodup _ h]
      · simp [hasDup_eq_true_of_not_nodup _ h]
    rw [if_pos hcond]

/-- Closed witness for setUp_validation_invariants: a four-tap setup, two
taps per surface with distinct coordinates, is accepted and the accepted
masks satisfy the invariants. -/
theorem setUp_validation_invariants_witness :
    setUpAccept [true, true, true, true] [true, true, false, false] [1, 2, 3, 4]
      = some ([true, true, false, false], [false, false, true, true], [1, 2, 3, 4])
    ∧ 2 ≤ countTrue [true, true, false, false]
    ∧ (maskFilter [true, true, false, false] ([1, 2, 3, 4] : List ℚ)).Nodup := by
  have hacc : setUpAccept [true, true, true, true] [true, true, false, false]
      ([1, 2, 3, 4] : List ℚ)
      = some ([true, true, false, false], [false, false, true, true],
        [1, 2, 3, 4]) := by
    rw [setUpAccept_characterization]
    refine ⟨by norm_num [setUpMasks], by norm_num [setUpMasks], rfl, ?_, ?_, ?_, ?_⟩
    · norm_num [hasDup, maskFilter]
    · norm_num [hasDup, maskFilter]
    · norm_num [countTrue]
    · norm_num [countTrue]
  have h := (setUp_validation_invariants [true, true, true, true]
    [true, true, false, false] [1, 2, 3, 4]).1
    [true, true, false, false] [false, false, true, true] [1, 2, 3, 4] hacc
  exact ⟨hacc, h.2.1, h.2.2.2.1⟩

/-- Panel sum for one surface exactly as coded in
Calculations.calculateLiftAndSplines (workers.py lines 1185-1204): panel
inclinations arctan(dy/dx), areas width*(dx/cos alpha), normal
y-components sign*cos alpha (sign is -1 on the top surface and +1 on the
bottom), and the sum of the elementwise products
(-1 * pressure) * normal * area over the panels. -/
noncomputable def liftSurfCode (sign width : ℝ) (dx dy pr : List ℝ) : ℝ :=
  let alpha := List.zipWith (fun y x => Real.arctan (y / x)) dy dx
  let area := List.zipWith (fun x a => width * (x / Real.cos a)) dx alpha
  let normY := alpha.map (fun a => sign * Real.cos a)
  (mulArr (mulArr (pr.map (fun p => -1 * p)) normY) area).sum

/-- Panel sum for one surface following the words of the specification:
multiply each panel area by its unit-normal y-component and by the
interpolated pressure, and sum over the panels; same alpha, area and
normal arrays as the code, but no -1 factor. -/
noncomputable def liftSurfSpec (sign width : ℝ) (dx dy pr : List ℝ) : ℝ :=
  let alpha := List.zipWith (fun y x => Real.arctan (y / x)) dy dx
  let area := List.zipWith (fun x a => width * (x / Real.cos a)) dx alpha
  let normY := alpha.map (fun a => sign * Real.cos a)
  (mulArr (mulArr area normY) pr).sum

/-- The lift computed by the code (workers.py lines 1180-1209) from the
two resampled wing curves, the two interpolated pressure arrays
(pressures taken from grid index 1 onward), width, chord length and the
angle of attack in degrees. -/
noncomputable def liftCode (width chord : ℝ)
    (xwT ywT pT xwB ywB pB : List ℝ) (angle : ℝ) : ℝ :=
  (liftSurfCode (-1) width (npDiff (xwT.map (fun x => x * chord)))
      (npDiff ywT) pT.tail
    + liftSurfCode 1 width (npDiff (xwB.map (fun x => x * chord)))
      (npDiff ywB) pB.tail)
    * Real.cos (angle * (Real.pi / 180))

/-- The lift the claim describes: per-surface sums of
area * normal * pressure, summed over the two surfaces and scaled by
cos(angle_of_attack). -/
noncomputable def liftSpecFormula (width chord : ℝ)
    (xwT ywT pT xwB ywB pB : List ℝ) (angle : ℝ) : ℝ :=
  (liftSurfSpec (-1) width (npDiff (xwT.map (fun x => x * chord)))
      (npDiff ywT) pT.tail
    + liftSurfSpec 1 width (npDiff (xwB.map (fun x => x * chord)))
      (npDiff ywB) pB.tail)
    * Real.cos (angle * (Real.pi / 180))

theorem sum_tripleProd_neg (P : List ℝ) :
    ∀ N A : List ℝ,
      (mulArr (mulArr (P.map (fun p => -1 * p)) N) A).sum
        = -(mulArr (mulArr A N) P).sum := by
  induction P with
  | nil => intro N A; simp [mulArr]
  | cons p ps ih =>
    intro N A
    cases N with
    | nil => simp [mulArr]
    | cons n ns =>
      cases A with
      | nil => simp [mulArr]
      | cons a as =>
        simp only [mulArr, List.map_cons, List.zipWith_cons_cons,
          List.sum_cons]
        have := ih ns as
        simp only [mulArr] at this
        rw [this]
        ring

theorem liftSurfCode_eq_neg_spec (sign width : ℝ) (dx dy pr : List ℝ) :
    liftSurfCode sign width dx dy pr = -liftSurfSpec sign width dx dy pr := by
  simp only [liftSurfCode, liftSurfSpec]
  exact sum_tripleProd_neg pr _ _

/-- C2 amended: for every pair of resampled wing curves, pressure arrays,
width, chord and angle of attack, the lift the code computes is the
NEGATION of the panel-integration formula stated in the claim: each panel
contributes -1 * pressure * normal * area rather than
area * normal * pressure. -/
theorem liftCode_eq_neg_specFormula (width chord : ℝ)
    (xwT ywT pT xwB ywB pB : List ℝ) (angle : ℝ) :
    liftCode width chord xwT ywT pT xwB ywB pB angle
      = -liftSpecFormula width chord xwT ywT pT xwB ywB pB angle := by
  unfold liftCode liftSpecFormula
  rw [liftSurfCode_eq_neg_spec, liftSurfCode_eq_neg_spec]
  ring

/-- C2 counterexample: on a flat single-panel wing (all inclinations
zero) with top pressure 1 and zero elsewhere, the coded lift is 1 while
the formula of the claim gives -1, so the claim as stated is false. -/
theorem liftCode_ne_specFormula_at_flat_panel :
    liftCode 1 1 [0, 1] [0, 0] [0, 1] [0, 1] [0, 0] [0, 0] 0 = 1
    ∧ liftSpecFormula 1 1 [0, 1] [0, 0] [0, 1] [0, 1] [0, 0] [0, 0] 0 = -1
    ∧ liftCode 1 1 [0, 1] [0, 0] [0, 1] [0, 1] [0, 0] [0, 0] 0
      ≠ liftSpecFormula 1 1 [0, 1] [0, 0] [0, 1] [0, 1] [0, 0] [0, 0] 0 := by
  have h1 : liftCode 1 1 [0, 1] [0, 0] [0, 1] [0, 1] [0, 0] [0, 0] 0 = 1 := by
    norm_num [liftCode, liftSurfCode, npDiff, mulArr]
  have h2 : liftSpecFormula 1 1 [0, 1] [0, 0] [0, 1] [0, 1] [0, 0] [0, 0] 0
      = -1 := by
    norm_num [liftSpecFormula, liftSurfSpec, npDiff, mulArr]
  refine ⟨h1, h2, ?_⟩
  rw [h1, h2]
  norm_num

/-- The configuration data Calculations.calculateLiftAndSplines reads:
active masks, tap coordinates, the wing geometry curves, chord, width,
angle of attack and the interpolation resolution. -/
structure CalcConfig where
  maskTop : List Bool
  maskBottom : List Bool
  xCoords : List ℚ
  xWingTop : List ℚ
  xWingBottom : List ℚ
  yWingTop : List ℚ
  yWingBottom : List ℚ
  chord : ℚ
  width : ℚ
  angle : ℚ
  nInterp : ℕ
deriving DecidableEq, Repr

/-- The instance attributes of the Calculations worker that the method
body mutates: spline_top, spline_bottom and lift. -/
structure CalcState where
  splineTop : List ℚ
  splineBottom : List ℚ
  lift : ℚ
deriving DecidableEq, Repr

/-- The tuple emitted through send_lift_splines_sig on a successful run
(workers.py lines 1212-1224). -/
structure CalcEmit where
  lift : ℚ
  splineTop : List ℚ
  splineBottom : List ℚ
  grid : List ℚ
  yWingTop : List ℚ
  yWingBottom : List ℚ
  xWingInterpTop : List ℚ
  xWingInterpBottom : List ℚ
  liftDataAvailable : Bool
deriving DecidableEq, Repr

/-- Lexicographic key order of np.lexsort((pressures, coordinates)):
coordinate first, pressure as tie-break. -/
def lexRel (a b : ℚ × ℚ) : Prop :=
  a.1 < b.1 ∨ (a.1 = b.1 ∧ a.2 ≤ b.2)

instance lexRel.decidable : DecidableRel lexRel :=
  fun a b => inferInstanceAs (Decidable (a.1 < b.1 ∨ (a.1 = b.1 ∧ a.2 ≤ b.2)))

/-- Sort the (coordinate, pressure) pairs of one surface in ascending
coordinate order with pressure tie-break, as the np.lexsort block of
workers.py lines 1107-1115 does, returning the reordered coordinate and
pressure arrays. -/
def lexsortPairs (xs ps : List ℚ) : List ℚ × List ℚ :=
  ((xs.zip ps).insertionSort lexRel |>.map (fun q => q.1),
   (xs.zip ps).insertionSort lexRel |>.map (fun q => q.2))

/-- First half of calculateLiftAndSplines (workers.py lines 1099-1157):
mask selection, sorting, boundary extension, the uniform grid, and the
Akima interpolation of both pressure curves. The scipy interpolator is an
abstract parameter ak that may fail (raise) at construction. Returns the
grid and both sampled splines; none models a raised exception. -/
def calcPhase1 (ak : List ℚ → List ℚ → Option (ℚ → ℚ))
    (cfg : CalcConfig) (ps : List ℚ) :
    Option (List ℚ × List ℚ × List ℚ) := do
  let pressuresTop := maskFilter cfg.maskTop ps
  let pressuresBottom := maskFilter cfg.maskBottom ps
  let xTop := maskFilter cfg.maskTop cfg.xCoords
  let xBottom := maskFilter cfg.maskBottom cfg.xCoords
  let sortedTop := lexsortPairs xTop pressuresTop
  let sortedBottom := lexsortPairs xBottom pressuresBottom
  let extTop ← extendTop sortedTop.1 sortedTop.2
  let extBottom ← extendBottom sortedBottom.1 sortedBottom.2 xBottom
  let preTop ← prependZero extTop.1 extTop.2
  let preBottom ← prependZero extBottom.1 extBottom.2
  let grid := linspace 0 1 cfg.nInterp
  let fTop ← ak preTop.1 preTop.2
  let fBottom ← ak preBottom.1 preBottom.2
  pure (grid, grid.map fTop, grid.map fBottom)

/-- Second half of calculateLiftAndSplines (workers.py lines 1159-1210):
wing-geometry resampling and the panel integration, with the float
trigonometric functions cos, arctan and deg2rad as abstract parameters.
Returns lift, both resampled wing curves and both wing grids. -/
def calcPhase2 (ak : List ℚ → List ℚ → Option (ℚ → ℚ))
    (rcos ratan d2r : ℚ → ℚ) (cfg : CalcConfig) (sT sB : List ℚ) :
    Option (ℚ × List ℚ × List ℚ × List ℚ × List ℚ) := do
  let x0T ← cfg.xWingTop.head?
  let x1T ← negGet cfg.xWingTop 1
  let xwiT := linspace x0T x1T cfg.nInterp
  let x0B ← cfg.xWingBottom.head?
  let x1B ← negGet cfg.xWingBottom 1
  let xwiB := linspace x0B x1B cfg.nInterp
  let fT ← ak cfg.xWingTop cfg.yWingTop
  let fB ← ak cfg.xWingBottom cfg.yWingBottom
  let ywT := xwiT.map fT
  let ywB := xwiB.map fB
  let dxT := npDiff (xwiT.map (fun x => x * cfg.chord))
  let dxB := npDiff (xwiB.map (fun x => x * cfg.chord))
  let dyT := npDiff ywT
  let dyB := npDiff ywB
  let alphaT := List.zipWith (fun y x => ratan (y / x)) dyT dxT
  let alphaB := List.zipWith (fun y x => ratan (y / x)) dyB dxB
  let areaT := List.zipWith (fun x a => cfg.width * (x / rcos a)) dxT alphaT
  let areaB := List.zipWith (fun x a => cfg.width * (x / rcos a)) dxB alphaB
  let normT := alphaT.map (fun a => -1 * rcos a)
  let normB := alphaB.map (fun a => rcos a)
  let liftTop := (mulArr (mulArr (sT.tail.map (fun p => -1 * p)) normT) areaT).sum
  let liftBottom := (mulArr (mulArr (sB.tail.map (fun p => -1 * p)) normB) areaB).sum
  let lift := (liftTop + liftBottom) * rcos (d2r cfg.angle)
  pure (lift, ywT, ywB, xwiT, xwiB)

/-- The whole pipeline body inside the try block; none models a raised
exception anywhere in it. -/
def calcPipeline (ak : List ℚ → List ℚ → Option (ℚ → ℚ))
    (rcos ratan d2r : ℚ → ℚ) (cfg : CalcConfig) (ps : List ℚ) :
    Option CalcEmit := do
  let r1 ← calcPhase1 ak cfg ps
  let r2 ← calcPhase2 ak rcos ratan d2r cfg r1.2.1 r1.2.2
  pure ⟨r2.1, r1.2.1, r1.2.2, r1.1, r2.2.1, r2.2.2.1, r2.2.2.2.1,
    r2.2.2.2.2, true⟩

/-- Model of one call of Calculations.calculateLiftAndSplines: run the
try block; the spline attributes are assigned as soon as phase one
succeeds (workers.py lines 1156-1157), lift only at the very end; on any
exception the except branch logs (the returned flag) and nothing is
emitted. -/
def calculateLiftAndSplines (ak : List ℚ → List ℚ → Option (ℚ → ℚ))
    (rcos ratan d2r : ℚ → ℚ) (cfg : CalcConfig) (ps : List ℚ)
    (st : CalcState) : CalcState × Option CalcEmit × Bool :=
  match calcPhase1 ak cfg ps with
  | none => (st, none, true)
  | some r1 =>
    match calcPhase2 ak rcos ratan d2r cfg r1.2.1 r1.2.2 with
    | none => ({ st with splineTop := r1.2.1, splineBottom := r1.2.2 }, none, true)
    | some r2 =>
      ({ splineTop := r1.2.1, splineBottom := r1.2.2, lift := r2.1 },
       some ⟨r2.1, r1.2.1, r1.2.2, r1.1, r2.2.1, r2.2.2.1, r2.2.2.2.1,
         r2.2.2.2.2, true⟩,
       false)

/-- The consumer side of send_lift_splines_sig: the published result is
replaced only when a tuple is actually emitted. -/
def publishStep (pub e : Option CalcEmit) : Option CalcEmit :=
  match e with
  | some t => some t
  | none => pub

/-- C3: on every input on which the pipeline raises an exception, the
call logs the error, emits no result tuple, and the published result any
consumer holds is retained unchanged - no field of it is replaced. -/
theorem calc_exception_caught_no_publish
    (ak : List ℚ → List ℚ → Option (ℚ → ℚ)) (rcos ratan d2r : ℚ → ℚ)
    (cfg : CalcConfig) (ps : List ℚ) (st : CalcState) (pub : Option CalcEmit)
    (hfail : calcPipeline ak rcos ratan d2r cfg ps = none) :
    (calculateLiftAndSplines ak rcos ratan d2r cfg ps st).2.1 = none
    ∧ (calculateLiftAndSplines ak rcos ratan d2r cfg ps st).2.2 = true
    ∧ publishStep pub (calculateLiftAndSplines ak rcos ratan d2r cfg ps st).2.1
      = pub := by
  cases h1 : calcPhase1 ak cfg ps with
  | none => simp [calculateLiftAndSplines, h1, publishStep]
  | some r1 =>
    cases h2 : calcPhase2 ak rcos ratan d2r cfg r1.2.1 r1.2.2 with
    | none => simp [calculateLiftAndSplines, h1, h2, publishStep]
    | some r2 =>
      exfalso
      unfold calcPipeline at hfail
      rw [h1] at hfail
      simp [h2, Option.bind] at hfail

/-- An always-succeeding constant stand-in for the abstract interpolator,
used to instantiate witnesses. -/
def akConst : List ℚ → List ℚ → Option (ℚ → ℚ) :=
  fun _ _ => some (fun _ => 0)

/-- Identity stand-in for the abstract float functions in witnesses. -/
def idQ : ℚ → ℚ := fun q => q

/-- A configuration whose top surface has a single active tap, one of the
degenerate geometries of the failure policy: pressures_top[-2] in the
boundary extension raises. -/
def cfgFail : CalcConfig :=
  { maskTop := [true, false], maskBottom := [false, true]
    xCoords := [1/2, 1/4]
    xWingTop := [0, 1], xWingBottom := [0, 1]
    yWingTop := [0, 0], yWingBottom := [0, 0]
    chord := 1, width := 1, angle := 0, nInterp := 3 }

/-- A previously published result tuple for the retention witness. -/
def emit0 : CalcEmit :=
  ⟨5, [1], [2], [0], [], [], [], [], true⟩

/-- Closed witness for calc_exception_caught_no_publish: with one active
top tap the pipeline fails, nothing is emitted, the error is logged, and
the previously published tuple survives. -/
theorem calc_exception_caught_no_publish_witness :
    calcPipeline akConst idQ idQ idQ cfgFail [1, 2] = none
    ∧ (calculateLiftAndSplines akConst idQ idQ idQ cfgFail [1, 2]
        ⟨[], [], 0⟩).2.1 = none
    ∧ (calculateLiftAndSplines akConst idQ idQ idQ cfgFail [1, 2]
        ⟨[], [], 0⟩).2.2 = true
    ∧ publishStep (some emit0)
        (calculateLiftAndSplines akConst idQ idQ idQ cfgFail [1, 2]
          ⟨[], [], 0⟩).2.1
      = some emit0 := by
  have hfail : calcPipeline akConst idQ idQ idQ cfgFail [1, 2] = none := by
    norm_num [calcPipeline, calcPhase1, cfgFail, maskFilter, lexsortPairs,
      List.insertionSort, List.orderedInsert, extendTop, negGet,
      Option.bind]
  have h := calc_exception_caught_no_publish akConst idQ idQ idQ cfgFail
    [1, 2] ⟨[], [], 0⟩ (some emit0) hfail
  exact ⟨hfail, h.1, h.2.1, h.2.2⟩

/-- The attributes of the Plot worker that the animation tick reads and
writes: the plot-option check boxes (pause, line/spline, cp), the
lift_data_available flag, the latest sample and setup data, the
calculation-result attributes (Option models an attribute that is unset
before the first result and would raise AttributeError), the wing arrays
(plain empty lists at start-up), the four overlay lines, the two
pressure-marker lines and the lift LCD display value. -/
structure PlotState where
  pauseBox : Bool
  lineBox : Bool
  cpBox : Bool
  liftDataAvailable : Bool
  pressureArray : List ℚ
  maskTop : List Bool
  maskBottom : List Bool
  xCoordinatesTop : List ℚ
  xCoordinatesBottom : List ℚ
  xGridInterpolation : Option (List ℚ)
  splineTop : Option (List ℚ)
  splineBottom : Option (List ℚ)
  xWingInterpTop : List ℚ
  xWingInterpBottom : List ℚ
  yWingTop : List ℚ
  yWingBottom : List ℚ
  yWingScalePressures : ℚ
  yWingScaleCp : ℚ
  wingSign : ℚ
  velocity : ℚ
  density : ℚ
  lift : ℚ
  lineSplineTop : List ℚ × List ℚ
  lineSplineBottom : List ℚ × List ℚ
  lineWingTop : List ℚ × List ℚ
  lineWingBottom : List ℚ × List ℚ
  linePressuresTop : List ℚ × List ℚ
  linePressuresBottom : List ℚ × List ℚ
  lcdLift : ℚ
deriving DecidableEq, Repr

/-- Model of Plot.updateDynamicLCDs: the lift LCDs display the raw
self.lift attribute. -/
def updateDynamicLCDs (st : PlotState) : PlotState :=
  { st with lcdLift := st.lift }

/-- Model of Plot.plotPressures (workers.py lines 448-523): update the
pressure marker lines from the masked raw pressures; draw the spline and
wing overlays only when the line check box is on AND
lift_data_available is true, otherwise erase the spline lines; finally
refresh the LCDs. none models a raised exception during the tick. -/
def plotPressures (st : PlotState) : Option PlotState :=
  let st1 := { st with
    linePressuresTop :=
      (st.xCoordinatesTop, maskFilter st.maskTop st.pressureArray)
    linePressuresBottom :=
      (st.xCoordinatesBottom, maskFilter st.maskBottom st.pressureArray) }
  if st.lineBox && st.liftDataAvailable then do
    let grid ← st.xGridInterpolation
    let sT ← st.splineTop
    let sB ← st.splineBottom
    let lastT ← negGet st.xWingInterpTop 1
    let lastB ← negGet st.xWingInterpBottom 1
    pure (updateDynamicLCDs { st1 with
      lineSplineTop := (grid, sT)
      lineSplineBottom := (grid, sB)
      lineWingTop := (st.xWingInterpTop.map (fun x => x / lastT),
        st.yWingTop.map (fun y => st.wingSign * y * st.yWingScalePressures))
      lineWingBottom := (st.xWingInterpBottom.map (fun x => x / lastB),
        st.yWingBottom.map (fun y => st.wingSign * y * st.yWingScalePressures)) })
  else
    pure (updateDynamicLCDs { st1 with
      lineSplineTop := (([] : List ℚ), ([] : List ℚ))
      lineSplineBottom := (([] : List ℚ), ([] : List ℚ)) })

/-- Model of Plot.plotCp (workers.py lines 525-607): recompute the cp
denominator 0.5*velocity^2*density from the current attributes, divide
the masked pressures by it, and - guarded ONLY by the line check box,
without consulting lift_data_available - draw the spline overlays divided
by the denominator together with the wing overlays; in the else branch
erase the spline lines and refresh the LCDs (the if branch does not
refresh them). none models a raised exception during the tick. -/
def plotCp (st : PlotState) : Option PlotState :=
  let denom := 1/2 * st.velocity^2 * st.density
  let st1 := { st with
    linePressuresTop := (st.xCoordinatesTop,
      (maskFilter st.maskTop st.pressureArray).map (fun p => p / denom))
    linePressuresBottom := (st.xCoordinatesBottom,
      (maskFilter st.maskBottom st.pressureArray).map (fun p => p / denom)) }
  if st.lineBox then do
    let grid ← st.xGridInterpolation
    let sT ← st.splineTop
    let sB ← st.splineBottom
    let lastT ← negGet st.xWingInterpTop 1
    let lastB ← negGet st.xWingInterpBottom 1
    pure { st1 with
      lineSplineTop := (grid, sT.map (fun p => p / denom))
      lineSplineBottom := (grid, sB.map (fun p => p / denom))
      lineWingTop := (st.xWingInterpTop.map (fun x => x / lastT),
        st.yWingTop.map (fun y => st.wingSign * y * st.yWingScaleCp))
      lineWingBottom := (st.xWingInterpBottom.map (fun x => x / lastB),
        st.yWingBottom.map (fun y => st.wingSign * y * st.yWingScaleCp)) }
  else
    pure (updateDynamicLCDs { st1 with
      lineSplineTop := (([] : List ℚ), ([] : List ℚ))
      lineSplineBottom := (([] : List ℚ), ([] : List ℚ)) })

/-- A Plot state before the first calculation result: overlays requested
(line box on) in cp view, lift_data_available false, result attributes
unset, wing arrays still the start-up empty lists. -/
def stFresh : PlotState :=
  { pauseBox := false, lineBox := true, cpBox := true
    liftDataAvailable := false
    pressureArray := [1, 2], maskTop := [true, false], maskBottom := [false, true]
    xCoordinatesTop := [0], xCoordinatesBottom := [1]
    xGridInterpolation := none, splineTop := none, splineBottom := none
    xWingInterpTop := [], xWingInterpBottom := []
    yWingTop := [], yWingBottom := []
    yWingScalePressures := 1, yWingScaleCp := 1, wingSign := 1
    velocity := 2, density := 1, lift := 2
    lineSplineTop := ([], []), lineSplineBottom := ([], [])
    lineWingTop := ([], []), lineWingBottom := ([], [])
    linePressuresTop := ([], []), linePressuresBottom := ([], [])
    lcdLift := 0 }

/-- The same situation but with result attributes holding stale arrays
while lift_data_available is still false. -/
def stStale : PlotState :=
  { stFresh with
    xGridInterpolation := some [0, 1]
    splineTop := some [2, 2], splineBottom := some [3, 3]
    xWingInterpTop := [0, 1], xWingInterpBottom := [0, 1]
    yWingTop := [0, 0], yWingBottom := [0, 0] }

/-- C7: plotCp ignores lift_data_available. While it is false, a cp-view
tick with the spline box on does NOT omit the overlays: with the result
attributes unset the tick raises (AttributeError) instead of skipping
them, and with stale arrays present it draws the overlays from them; by
contrast plotPressures on the same invalid state erases the spline
overlays as the claim describes. -/
theorem plotCp_overlays_despite_invalid :
    stFresh.liftDataAvailable = false
    ∧ plotCp stFresh = none
    ∧ stStale.liftDataAvailable = false
    ∧ (plotCp stStale).map (fun s => s.lineSplineTop)
      = some ([0, 1], [1, 1])
    ∧ (plotPressures stFresh).map (fun s => s.lineSplineTop)
      = some ([], []) := by
  refine ⟨rfl, ?_, rfl, ?_, ?_⟩
  · norm_num [plotCp, stFresh, Option.bind]
  · norm_num [plotCp, stStale, stFresh, negGet, Option.bind]
  · norm_num [plotPressures, stFresh, updateDynamicLCDs, Option.bind]

/-- A cp-view state with spline overlay off, velocity 2, density 1
(denominator 2) and raw lift 2. -/
def stCp : PlotState :=
  { stFresh with lineBox := false }

/-- C8 counterexample: in CoefficientView the tick displays the raw lift
on the LCD; here the raw lift is 2 while lift divided by the denominator
0.5*velocity^2*density is 1, so the displayed lift is NOT the normalized
quantity the claim describes. -/
theorem plotCp_lift_lcd_not_normalized :
    (plotCp stCp).map (fun s => s.lcdLift) = some 2
    ∧ stCp.lift / (1/2 * stCp.velocity^2 * stCp.density) = 1
    ∧ (2 : ℚ) ≠ 1 := by
  refine ⟨?_, ?_, ?_⟩
  · norm_num [plotCp, stCp, stFresh, updateDynamicLCDs, Option.bind]
  · norm_num [stCp, stFresh]
  · norm_num

/-- C8 amended: every cp-view tick divides the tap pressures and (when
the overlay branch runs) both spline arrays by the denominator
0.5*velocity^2*density recomputed from the current velocity and density
attributes; the lift LCD however is never normalized: the else branch
displays the raw lift and the overlay branch leaves the LCDs untouched. -/
theorem plotCp_normalizes_pressures_splines_only (st out : PlotState)
    (h : plotCp st = some out) :
    out.linePressuresTop = (st.xCoordinatesTop,
      (maskFilter st.maskTop st.pressureArray).map
        (fun p => p / (1/2 * st.velocity^2 * st.density)))
    ∧ out.linePressuresBottom = (st.xCoordinatesBottom,
      (maskFilter st.maskBottom st.pressureArray).map
        (fun p => p / (1/2 * st.velocity^2 * st.density)))
    ∧ (∀ grid sT, st.lineBox = true → st.xGridInterpolation = some grid →
        st.splineTop = some sT →
        out.lineSplineTop = (grid, sT.map
          (fun p => p / (1/2 * st.velocity^2 * st.density))))
    ∧ (∀ grid sB, st.lineBox = true → st.xGridInterpolation = some grid →
        st.splineBottom = some sB →
        out.lineSplineBottom = (grid, sB.map
          (fun p => p / (1/2 * st.velocity^2 * st.density))))
    ∧ out.lcdLift = (if st.lineBox then st.lcdLift else st.lift) := by
  by_cases hl : st.lineBox = true
  · simp only [plotCp, hl, if_true] at h
    cases hg : st.xGridInterpolation with
    | none => rw [hg] at h; simp at h
    | some grid =>
      cases hsT : st.splineTop with
      | none => rw [hg, hsT] at h; simp at h
      | some sT =>
        cases hsB : st.splineBottom with
        | none => rw [hg, hsT, hsB] at h; simp at h
        | some sB =>
          cases hlT : negGet st.xWingInterpTop 1 with
          | none => rw [hg, hsT, hsB, hlT] at h; simp at h
          | some lastT =>
            cases hlB : negGet st.xWingInterpBottom 1 with
            | none => rw [hg, hsT, hsB, hlT, hlB] at h; simp at h
            | some lastB =>
              rw [hg, hsT, hsB, hlT, hlB] at h
              simp only [Option.pure_def, Option.bind_eq_bind, Option.bind,
                Option.some.injEq] at h
              subst h
              refine ⟨rfl, rfl, ?_, ?_, by simp [hl]⟩
              · intro grid2 sT2 _ hg2 hsT2
                injection hg2 with e1
                injection hsT2 with e2
                subst e1; subst e2
                rfl
              · intro grid2 sB2 _ hg2 hsB2
                injection hg2 with e1
                injection hsB2 with e2
                subst e1; subst e2
                rfl
  · have hlf : st.lineBox = false := by
      cases hb : st.lineBox
      · rfl
      · exact absurd hb hl
    simp only [plotCp, hlf, Bool.false_eq_true, if_false,
      Option.pure_def, Option.some.injEq] at h
    subst h
    refine ⟨rfl, rfl, ?_, ?_, ?_⟩
    · intro grid sT hlbox _ _
      exact absurd hlbox hl
    · intro grid sB hlbox _ _
      exact absurd hlbox hl
    · simp [updateDynamicLCDs, hlf]

/-- The tick result of plotCp on stCp, written out. -/
def outCp : PlotState :=
  { stCp with
    linePressuresTop := ([0], [1/2])
    linePressuresBottom := ([1], [1])
    lineSplineTop := ([], [])
    lineSplineBottom := ([], [])
    lcdLift := 2 }

/-- Closed witness for plotCp_normalizes_pressures_splines_only at the
concrete state stCp. -/
theorem plotCp_normalizes_pressures_splines_only_witness :
    plotCp stCp = some outCp
    ∧ outCp.linePressuresTop = (stCp.xCoordinatesTop,
        (maskFilter stCp.maskTop stCp.pressureArray).map
          (fun p => p / (1/2 * stCp.velocity^2 * stCp.density)))
    ∧ outCp.lcdLift = (if stCp.lineBox then stCp.lcdLift else stCp.lift) := by
  have heq : plotCp stCp = some outCp := by
    simp only [plotCp, stCp, stFresh, outCp, updateDynamicLCDs, maskFilter]
    norm_num
  have h := plotCp_normalizes_pressures_splines_only stCp outCp heq
  exact ⟨heq, h.1, h.2.2.2.2⟩
